import Mathlib

/-!
Shallow embedding of the go-commons-libs repository: the RabbitMQ
connection-manager adapter (src/pkg/adapter/rabbitmq/rabbitmq.go) and the
Azure blob-storage adapter (src/pkg/adapter/azure/blobstorage/blobstorage.go),
together with theorems checking the specification's claims against them.

Go nil pointers are modelled as `none`; the fallible external calls made by
one operation (amqp.Dial, conn.Channel, the blob service's reply) are passed
in as explicit outcome parameters, so every definition is executable.
-/

namespace rabbitmq

/-- Handle standing for a live `*amqp.Connection`, identified abstractly. -/
structure AmqpConnection where
  id : Nat
deriving DecidableEq

/-- Handle standing for a live `*amqp.Channel`, identified abstractly. -/
structure AmqpChannel where
  id : Nat
deriving DecidableEq

/-- The two fields of `config.Config` this adapter reads and writes
(rabbitmq.go uses `conf.RMQ_URI` and `conf.RMQ_MAXX_RECONNECT_TIMES`). -/
structure Config where
  RMQ_URI : String := ""
  RMQ_MAXX_RECONNECT_TIMES : Int := 0
deriving DecidableEq

/-- rabbitmq.go line 14: `const DEFAULT_MAX_RECONNECT_TIMES = 3`. -/
def DEFAULT_MAX_RECONNECT_TIMES : Int := 3

/-- The `rbm_pool` struct (rabbitmq.go lines 55-61): one connection handle,
one channel handle, the configuration, and the (never assigned in the
source) `MAXX_RECONNECT_TIMES` field. Go zero values are the defaults; the
`err` notification channel feeds the reconnect machinery and is modelled
there. -/
structure rbm_pool where
  conn : Option AmqpConnection := none
  channel : Option AmqpChannel := none
  conf : Config := {}
  MAXX_RECONNECT_TIMES : Int := 0
deriving DecidableEq

/-- The environment variables `New` reads. `os.Getenv` yields "" when a
variable is unset, so unset and empty are indistinguishable, as in Go. -/
structure Env where
  SRV_RMQ_URI : String := ""
  SRV_RMQ_MAXX_RECONNECT_TIMES : String := ""
deriving DecidableEq

/-- Whether `strconv.Atoi` accepts the string: an optional single sign
followed by one or more decimal digits. (64-bit range clamping is not
modelled; the adapter only ever feeds small retry counts through it.) -/
def atoiValid (s : String) : Bool :=
  match s.data with
  | [] => false
  | c :: cs =>
    if c = '-' || c = '+' then (!cs.isEmpty) && cs.all (fun d => d.isDigit)
    else (c :: cs).all (fun d => d.isDigit)

/-- Numeric value of a list of decimal digit characters. -/
def digitsVal (l : List Char) : Nat :=
  l.foldl (fun acc c => 10 * acc + (c.toNat - 48)) 0

/-- `strconv.Atoi`: the parsed value together with an error flag. On a
syntactically invalid string Go returns value 0 alongside the error, which
is exactly the behaviour `New` relies on when it discards the error. -/
def atoi (s : String) : Int × Bool :=
  if atoiValid s = true then
    match s.data with
    | '-' :: cs => (-(digitsVal cs : Int), false)
    | '+' :: cs => ((digitsVal cs : Int), false)
    | cs => ((digitsVal cs : Int), false)
  else (0, true)

/-- Result of `New`: either the constructed pool, or `os.Exit(code)`
terminating the hosting process. -/
inductive NewOutcome where
  | exit (code : Nat)
  | ok (pool : rbm_pool)
deriving DecidableEq

/-- `New(conf)` (rabbitmq.go lines 67-88): requires SRV_RMQ_URI, logging and
calling `os.Exit(1)` when it is absent; reads SRV_RMQ_MAXX_RECONNECT_TIMES
through `strconv.Atoi`, discarding the parse error with `_`, and defaults
the field to DEFAULT_MAX_RECONNECT_TIMES when the variable is unset;
finally installs a fresh pool that holds the configuration and nil
handles. -/
def New (env : Env) (conf : Config) : NewOutcome :=
  if env.SRV_RMQ_URI ≠ "" then
    let conf1 := { conf with RMQ_URI := env.SRV_RMQ_URI }
    let conf2 :=
      if env.SRV_RMQ_MAXX_RECONNECT_TIMES ≠ "" then
        { conf1 with
            RMQ_MAXX_RECONNECT_TIMES := (atoi env.SRV_RMQ_MAXX_RECONNECT_TIMES).1 }
      else
        { conf1 with RMQ_MAXX_RECONNECT_TIMES := DEFAULT_MAX_RECONNECT_TIMES }
    NewOutcome.ok { conf := conf2 }
  else
    NewOutcome.exit 1

/-- The outcomes the broker gives one `Connect()` call: the result of
`amqp.Dial` and, if that step is reached, of `conn.Channel()`. `none` is a
failure, in which case the Go call returns a nil handle alongside its
error. -/
structure ConnectWorld where
  dial : Option AmqpConnection := none
  chanOpen : Option AmqpChannel := none
deriving DecidableEq

/-- `Connect()` (rabbitmq.go lines 90-118): assigns `rbm.conn` from the dial
result and returns on error; then assigns `rbm.channel` from the
channel-open result and returns on error. The Boolean is whether an error
was returned. The two closure-watcher goroutines it spawns only feed the
reconnect machinery and are modelled there. -/
def Connect (w : ConnectWorld) (rbm : rbm_pool) : rbm_pool × Bool :=
  match w.dial with
  | none => ({ rbm with conn := none }, true)
  | some c =>
    match w.chanOpen with
    | none => ({ rbm with conn := some c, channel := none }, true)
    | some ch => ({ rbm with conn := some c, channel := some ch }, false)

/-- `GetConnect()` (rabbitmq.go lines 120-122): returns the pool itself,
with no connectivity check and no error path. -/
def GetConnect (rbm : rbm_pool) : rbm_pool := rbm

/-- The Connected state as the specification characterises it: both the
connection handle and the channel handle are non-null. -/
def connected (rbm : rbm_pool) : Bool :=
  rbm.conn.isSome && rbm.channel.isSome

/-- Modelled from the spec: the reconnect supervisory loop (the source body
implementing it, inside `StartConsumer`, is not under src/). On one closure
event it re-runs the full `Connect()` sequence up to the given number of
times, indexing into `worlds` for each attempt's broker outcome and
stopping at the first success; exhausting the budget leaves the manager
Disconnected (both handles null) and reports a terminal ConnectionError to
the failure observer. Returns the final pool, the number of `Connect`
attempts performed, and whether the observer was notified. -/
def reconnectGo (worlds : Nat → ConnectWorld) :
    Nat → Nat → rbm_pool → rbm_pool × Nat × Bool
  | 0, _, rbm => ({ rbm with conn := none, channel := none }, 0, true)
  | n + 1, idx, rbm =>
    let r := Connect (worlds idx) rbm
    if r.2 = true then
      let rest := reconnectGo worlds n (idx + 1) r.1
      (rest.1, rest.2.1 + 1, rest.2.2)
    else
      (r.1, 1, false)

/-- Entry point of the reconnect cycle triggered by one closure event. -/
def reconnect (worlds : Nat → ConnectWorld) (maxTimes : Nat) (rbm : rbm_pool) :
    rbm_pool × Nat × Bool :=
  reconnectGo worlds maxTimes 0 rbm

/-- A broker that refuses every dial; used by closed instances below. -/
def downWorlds : Nat → ConnectWorld := fun _ => {}

/-- Environment with a URI but the reconnect variable unset. -/
def envNoTimes : Env :=
  { SRV_RMQ_URI := "amqp://h5", SRV_RMQ_MAXX_RECONNECT_TIMES := "" }

/-- The pool `New envNoTimes {}` constructs. -/
def poolDefault : rbm_pool :=
  { conf := { RMQ_URI := "amqp://h5", RMQ_MAXX_RECONNECT_TIMES := 3 } }

/-- Modelled from the spec: BindSpec — source exchange name and routing key
(the source's Bind struct definition is not under src/). -/
structure Bind where
  exchangeName : String := ""
  routingKey : String := ""
deriving DecidableEq

/-- Modelled from the spec: QueueSpec (the source's Queue struct definition
is not under src/): name, durability, auto-delete, exclusivity and no-wait
flags, and the ordered bind list. -/
structure Queue where
  name : String := ""
  durable : Bool := false
  autoDelete : Bool := false
  exclusive : Bool := false
  noWait : Bool := false
  binds : List Bind := []
deriving DecidableEq

/-- Modelled from the spec: the fixed enumeration of exchange kinds. -/
inductive ExchangeKind where
  | direct
  | fanout
  | topic
  | headers
deriving DecidableEq

/-- Modelled from the spec: ExchangeSpec (the source's Exchange struct
definition is not under src/). -/
structure Exchange where
  name : String := ""
  kind : ExchangeKind := ExchangeKind.direct
  durable : Bool := false
  autoDelete : Bool := false
deriving DecidableEq

/-- Modelled from the spec: `CompleteQueueDeclare` (its body is not under
src/, only its interface declaration is): declares each spec independently
through one broker call whose outcome is `outcome q` (`some e` being the
DeclarationError for that spec, `none` success), never stopping at a
failure; returns the collected errors plus, for specification purposes,
the ordered list of specs actually attempted. -/
def CompleteQueueDeclare (outcome : Queue → Option String) :
    List Queue → List String × List Queue
  | [] => ([], [])
  | q :: rest =>
    let r := CompleteQueueDeclare outcome rest
    match outcome q with
    | some e => (e :: r.1, q :: r.2)
    | none => (r.1, q :: r.2)

/-- Modelled from the spec: `CompleteExchangeDeclare`, the symmetric batch
contract for exchanges (its body is not under src/). -/
def CompleteExchangeDeclare (outcome : Exchange → Option String) :
    List Exchange → List String × List Exchange
  | [] => ([], [])
  | e :: rest =>
    let r := CompleteExchangeDeclare outcome rest
    match outcome e with
    | some s => (s :: r.1, e :: r.2)
    | none => (r.1, e :: r.2)

/-- One broker declaration as it is performed, for stating the order of
operations of `CompleteDeclare`. -/
inductive DeclEvent where
  | ex (e : Exchange)
  | qu (q : Queue)
deriving DecidableEq

/-- Modelled from the spec: `CompleteDeclare(cq, ce)` (its body is not under
src/): declares all exchanges first, then all queues, aggregating the two
error lists in that order; the second component is the full declaration
trace. -/
def CompleteDeclare (outQ : Queue → Option String)
    (outE : Exchange → Option String) (cq : List Queue) (ce : List Exchange) :
    List String × List DeclEvent :=
  let re := CompleteExchangeDeclare outE ce
  let rq := CompleteQueueDeclare outQ cq
  (re.1 ++ rq.1, re.2.map DeclEvent.ex ++ rq.2.map DeclEvent.qu)

end rabbitmq

namespace blobstorage

/-- An HTTP entity tag as used in conditional requests. -/
structure ETag where
  val : String
deriving DecidableEq

/-- `azcore.ETagAny`: the wildcard tag "*", matching any existing entity. -/
def ETagAny : ETag := ⟨"*"⟩

/-- `blob.ModifiedAccessConditions` — the adapter only ever sets the
IfNoneMatch member. -/
structure ModifiedAccessConditions where
  IfNoneMatch : Option ETag := none
deriving DecidableEq

/-- `blob.AccessConditions` (its ModifiedAccessConditions pointer member). -/
structure AccessConditions where
  modified : Option ModifiedAccessConditions := none
deriving DecidableEq

/-- `azblob.UploadBufferOptions` — only AccessConditions is set here. -/
structure UploadBufferOptions where
  accessConditions : Option AccessConditions := none
deriving DecidableEq

/-- `azblob.UploadStreamOptions` — only AccessConditions is set here. -/
structure UploadStreamOptions where
  accessConditions : Option AccessConditions := none
deriving DecidableEq

/-- The options literal `UploadBlobBuffer` passes (blobstorage.go lines
53-58): an if-none-match-any access condition. -/
def uploadBufferOptions : UploadBufferOptions :=
  { accessConditions := some { modified := some { IfNoneMatch := some ETagAny } } }

/-- The options literal `UploadBlobStream` passes (blobstorage.go lines
67-72): an if-none-match-any access condition. -/
def uploadStreamOptions : UploadStreamOptions :=
  { accessConditions := some { modified := some { IfNoneMatch := some ETagAny } } }

/-- Modelled from the spec: the external blob service's answer to an upload
request carrying the given access conditions (the Azure SDK and service are
consumed as a black box): with an if-none-match wildcard condition the
service rejects the upload when a blob already exists at the target
(container, name) pair, and otherwise — or without such a condition —
accepts it. `existing` lists the occupied (container, blobName) pairs; the
result is `none` on success, or the service's error. -/
def serviceUpload (existing : List (String × String))
    (containerName blobName : String) (cond : Option AccessConditions) :
    Option String :=
  match cond with
  | none => none
  | some ac =>
    match ac.modified with
    | none => none
    | some mac =>
      match mac.IfNoneMatch with
      | none => none
      | some t =>
        if t = ETagAny ∧ (containerName, blobName) ∈ existing then
          some ("BlobAlreadyExists")
        else none

/-- `UploadBlobBuffer` (blobstorage.go lines 52-63): issues UploadBuffer
with the if-none-match-any condition; a service error is wrapped and
returned, success returns nil. -/
def UploadBlobBuffer (existing : List (String × String))
    (blobName containerName : String) (data : List Nat) : Option String :=
  match serviceUpload existing containerName blobName
      uploadBufferOptions.accessConditions with
  | some e => some ("error uploading a buffer blob: " ++ e)
  | none => none

/-- `UploadBlobStream` (blobstorage.go lines 66-77): issues UploadStream
with the if-none-match-any condition; a service error is wrapped and
returned, success returns nil. -/
def UploadBlobStream (existing : List (String × String))
    (blobName containerName : String) (data : List Nat) : Option String :=
  match serviceUpload existing containerName blobName
      uploadStreamOptions.accessConditions with
  | some e => some ("error uploading a stream blob: " ++ e)
  | none => none

end blobstorage

namespace rabbitmq

/-- Whatever pool `New` returns holds the reconnect maximum computed from
the environment: the Atoi value when the variable is non-empty, the default
otherwise. -/
theorem new_pool_times (env : Env) (conf : Config) (pool : rbm_pool)
    (hok : New env conf = NewOutcome.ok pool) :
    pool.conf.RMQ_MAXX_RECONNECT_TIMES =
      if env.SRV_RMQ_MAXX_RECONNECT_TIMES = "" then DEFAULT_MAX_RECONNECT_TIMES
      else (atoi env.SRV_RMQ_MAXX_RECONNECT_TIMES).1 := by
  by_cases hu : env.SRV_RMQ_URI = ""
  · simp [New, hu] at hok
  · by_cases hm : env.SRV_RMQ_MAXX_RECONNECT_TIMES = "" <;>
      simp [New, hu, hm] at hok <;> simp [← hok, hm]

/-- Whenever the URI variable is present, `New` returns a pool. -/
theorem new_ok_of_uri (env : Env) (conf : Config)
    (hu : env.SRV_RMQ_URI ≠ "") :
    ∃ pool, New env conf = NewOutcome.ok pool := by
  cases hN : New env conf with
  | exit code => simp [New, hu] at hN
  | ok pool => exact ⟨pool, rfl⟩

/-- C1 is false as stated: constructing the manager with the broker URI
environment variable unset terminates the hosting process via `os.Exit(1)`
rather than reporting an error through a return value or the failure
observer. -/
theorem never_exits_counterexample :
    New { SRV_RMQ_URI := "", SRV_RMQ_MAXX_RECONNECT_TIMES := "" } {} =
      NewOutcome.exit 1 := by
  decide

/-- C1 (amended): the library can terminate its host: `New` exits the
process exactly when the broker URI variable is empty or unset, and on
every other environment it returns the constructed pool; other
unrecoverable conditions are reported as returned errors or through the
failure observer. -/
theorem new_exit_iff (env : Env) (conf : Config) :
    ((∃ code, New env conf = NewOutcome.exit code) ↔ env.SRV_RMQ_URI = "") ∧
    (env.SRV_RMQ_URI ≠ "" → ∃ pool, New env conf = NewOutcome.ok pool) := by
  by_cases h : env.SRV_RMQ_URI = "" <;> simp [New, h]

/-- Closed instance of `new_exit_iff` at a concrete environment. -/
theorem new_exit_iff_witness :
    ∃ pool,
      New { SRV_RMQ_URI := "amqp://h1", SRV_RMQ_MAXX_RECONNECT_TIMES := "" } {} =
        NewOutcome.ok pool :=
  (new_exit_iff { SRV_RMQ_URI := "amqp://h1", SRV_RMQ_MAXX_RECONNECT_TIMES := "" } {}).2
    (by decide)

/-- C2 is false as stated: even from a fresh pool, a `Connect` in which the
dial succeeds and the channel-open fails returns an error yet leaves the
connection handle non-null — an observable half-connected state. -/
theorem connect_atomicity_counterexample :
    (Connect { dial := some ⟨1⟩, chanOpen := none } {}).2 = true ∧
    (Connect { dial := some ⟨1⟩, chanOpen := none } {}).1.conn ≠ none := by
  decide

/-- C2 (amended): a failed `Connect` returns an error, but does not leave
both handles null: the connection field ends up equal to the dial result
(null only when the dial itself failed), and the channel field is nulled
only when the dial succeeded — after a dial failure it keeps whatever value
it had before the call. -/
theorem connect_failure_state (w : ConnectWorld) (rbm : rbm_pool)
    (h : (Connect w rbm).2 = true) :
    (Connect w rbm).1.conn = w.dial ∧
    (Connect w rbm).1.channel = if w.dial = none then rbm.channel else none := by
  cases hd : w.dial <;> cases hc : w.chanOpen <;>
    simp [Connect, hd, hc] at h ⊢

/-- Closed instance of `connect_failure_state` at a concrete failing call. -/
theorem connect_failure_state_witness :
    (Connect { dial := some ⟨2⟩, chanOpen := none } ({} : rbm_pool)).1.conn =
      some ⟨2⟩ ∧
    (Connect { dial := some ⟨2⟩, chanOpen := none } ({} : rbm_pool)).1.channel =
      (if (some (⟨2⟩ : AmqpConnection)) = none then ({} : rbm_pool).channel
       else none) :=
  connect_failure_state { dial := some ⟨2⟩, chanOpen := none } {} (by decide)

/-- C3 is false as stated: starting from a connected pool, a re-dial that
fails leaves the manager in a failed (hence Disconnected) state whose
channel handle is still the stale non-null one, violating "Disconnected
implies both handles null". -/
theorem state_invariant_counterexample :
    (Connect { dial := none, chanOpen := none }
        { conn := some ⟨5⟩, channel := some ⟨6⟩ }).2 = true ∧
    (Connect { dial := none, chanOpen := none }
        { conn := some ⟨5⟩, channel := some ⟨6⟩ }).1.channel ≠ none := by
  decide

/-- C3 (amended): at most one handle of each kind exists (the pool has one
field for each), and after every successful `Connect` both handles are
non-null; but after a failed `Connect` the manager, though disconnected,
can retain a non-null handle — a stale channel after a dial failure, or the
freshly dialed connection after a channel-open failure. -/
theorem connect_success_state (w : ConnectWorld) (rbm : rbm_pool)
    (h : (Connect w rbm).2 = false) :
    connected (Connect w rbm).1 = true := by
  cases hd : w.dial <;> cases hc : w.chanOpen <;>
    simp [Connect, connected, hd, hc] at h ⊢

/-- Closed instance of `connect_success_state` at a concrete successful call. -/
theorem connect_success_state_witness :
    connected (Connect { dial := some ⟨3⟩, chanOpen := some ⟨4⟩ }
      ({} : rbm_pool)).1 = true :=
  connect_success_state { dial := some ⟨3⟩, chanOpen := some ⟨4⟩ } {} (by decide)

/-- C4 is false as stated: on a pool that is not Connected (here one whose
re-dial failed, leaving a stale channel handle), `GetConnect` still returns
the pool — handing out its non-null channel handle — and has no error path
at all. -/
theorem getConnect_counterexample :
    connected ((Connect { dial := none, chanOpen := none }
        { conn := some ⟨8⟩, channel := some ⟨9⟩ }).1) = false ∧
    GetConnect ((Connect { dial := none, chanOpen := none }
        { conn := some ⟨8⟩, channel := some ⟨9⟩ }).1) =
      (Connect { dial := none, chanOpen := none }
        { conn := some ⟨8⟩, channel := some ⟨9⟩ }).1 ∧
    (GetConnect ((Connect { dial := none, chanOpen := none }
        { conn := some ⟨8⟩, channel := some ⟨9⟩ }).1)).channel = some ⟨9⟩ := by
  decide

/-- C4 (amended): `GetConnect` performs no state check and has no error
result: it returns the pool handle unchanged in every state, connected or
not. -/
theorem getConnect_unconditional (rbm : rbm_pool) : GetConnect rbm = rbm := rfl

/-- The reconnect loop never performs more `Connect` attempts than its
budget allows. -/
theorem reconnectGo_attempts_le (worlds : Nat → ConnectWorld) :
    ∀ (n idx : Nat) (rbm : rbm_pool),
      (reconnectGo worlds n idx rbm).2.1 ≤ n := by
  intro n
  induction n with
  | zero => intro idx rbm; simp [reconnectGo]
  | succ k ih =>
    intro idx rbm
    simp only [reconnectGo]
    split
    · exact Nat.succ_le_succ (ih (idx + 1) _)
    · exact Nat.succ_le_succ (Nat.zero_le k)

/-- When the reconnect loop reports to the failure observer, it has left
both handles null. -/
theorem reconnectGo_exhaust (worlds : Nat → ConnectWorld) :
    ∀ (n idx : Nat) (rbm : rbm_pool),
      (reconnectGo worlds n idx rbm).2.2 = true →
        (reconnectGo worlds n idx rbm).1.conn = none ∧
        (reconnectGo worlds n idx rbm).1.channel = none := by
  intro n
  induction n with
  | zero => intro idx rbm _; simp [reconnectGo]
  | succ k ih =>
    intro idx rbm h
    simp only [reconnectGo] at h ⊢
    split at h
    · rename_i hguard
      rw [if_pos hguard] at *
      exact ih (idx + 1) _ h
    · simp_all

/-- C5: for one closure event, the reconnect loop performs at most the
configured number of `Connect` re-attempts (so the (N+1)-th attempt never
occurs), exhaustion leaves the manager Disconnected and notifies the
failure observer, and when the environment variable is unset the configured
maximum constructed by `New` is the default 3. -/
theorem reconnect_policy (worlds : Nat → ConnectWorld) (env : Env)
    (conf : Config) (pool : rbm_pool)
    (hok : New env conf = NewOutcome.ok pool) (rbm : rbm_pool) :
    (reconnect worlds pool.conf.RMQ_MAXX_RECONNECT_TIMES.toNat rbm).2.1 ≤
      pool.conf.RMQ_MAXX_RECONNECT_TIMES.toNat ∧
    ((reconnect worlds pool.conf.RMQ_MAXX_RECONNECT_TIMES.toNat rbm).2.2 = true →
      (reconnect worlds pool.conf.RMQ_MAXX_RECONNECT_TIMES.toNat rbm).1.conn = none ∧
      (reconnect worlds pool.conf.RMQ_MAXX_RECONNECT_TIMES.toNat rbm).1.channel = none) ∧
    (env.SRV_RMQ_MAXX_RECONNECT_TIMES = "" →
      pool.conf.RMQ_MAXX_RECONNECT_TIMES = 3) := by
  refine ⟨reconnectGo_attempts_le worlds _ 0 rbm,
          reconnectGo_exhaust worlds _ 0 rbm, ?_⟩
  intro hmt
  rw [new_pool_times env conf pool hok, if_pos hmt]
  rfl

/-- Closed instance of `reconnect_policy`: the environment leaves the
reconnect variable unset, and the broker refuses every dial. -/
theorem reconnect_policy_witness :
    (reconnect downWorlds poolDefault.conf.RMQ_MAXX_RECONNECT_TIMES.toNat
        ({} : rbm_pool)).2.1 ≤
      poolDefault.conf.RMQ_MAXX_RECONNECT_TIMES.toNat ∧
    ((reconnect downWorlds poolDefault.conf.RMQ_MAXX_RECONNECT_TIMES.toNat
        ({} : rbm_pool)).2.2 = true →
      (reconnect downWorlds poolDefault.conf.RMQ_MAXX_RECONNECT_TIMES.toNat
        ({} : rbm_pool)).1.conn = none ∧
      (reconnect downWorlds poolDefault.conf.RMQ_MAXX_RECONNECT_TIMES.toNat
        ({} : rbm_pool)).1.channel = none) ∧
    (envNoTimes.SRV_RMQ_MAXX_RECONNECT_TIMES = "" →
      poolDefault.conf.RMQ_MAXX_RECONNECT_TIMES = 3) :=
  reconnect_policy downWorlds envNoTimes {} poolDefault (by decide) {}

/-- C6: at construction, the broker URI is required — its absence makes
`New` terminate the process with exit code 1, a fatal startup error — while
the reconnect-attempt count is optional and defaults to 3 when its
environment variable is unset. -/
theorem new_config_requirements (env : Env) (conf : Config) :
    (env.SRV_RMQ_URI = "" → New env conf = NewOutcome.exit 1) ∧
    (env.SRV_RMQ_URI ≠ "" → env.SRV_RMQ_MAXX_RECONNECT_TIMES = "" →
      ∃ pool, New env conf = NewOutcome.ok pool ∧
        pool.conf.RMQ_MAXX_RECONNECT_TIMES = 3) := by
  constructor
  · intro h; simp [New, h]
  · intro hu hm
    obtain ⟨pool, hN⟩ := new_ok_of_uri env conf hu
    refine ⟨pool, hN, ?_⟩
    rw [new_pool_times env conf pool hN, if_pos hm]
    rfl

/-- Closed instances of `new_config_requirements`: one environment without
the URI, one with the URI but without the reconnect variable. -/
theorem new_config_requirements_witness :
    New { SRV_RMQ_URI := "", SRV_RMQ_MAXX_RECONNECT_TIMES := "x" } {} =
      NewOutcome.exit 1 ∧
    ∃ pool,
      New { SRV_RMQ_URI := "amqp://h6", SRV_RMQ_MAXX_RECONNECT_TIMES := "" } {} =
        NewOutcome.ok pool ∧ pool.conf.RMQ_MAXX_RECONNECT_TIMES = 3 :=
  ⟨(new_config_requirements
      { SRV_RMQ_URI := "", SRV_RMQ_MAXX_RECONNECT_TIMES := "x" } {}).1 rfl,
   (new_config_requirements
      { SRV_RMQ_URI := "amqp://h6", SRV_RMQ_MAXX_RECONNECT_TIMES := "" } {}).2
      (by decide) rfl⟩

/-- C10: when the reconnect-times variable is set to a non-empty string the
`strconv.Atoi` parser rejects, `New` discards the parse error with `_` and
stores Atoi's zero result — 0, not the documented default 3 — so the
reconnect budget is zero: the reconnect loop performs no attempt at all
before notifying the failure observer. -/
theorem new_malformed_reconnect_times (env : Env) (conf : Config)
    (hu : env.SRV_RMQ_URI ≠ "") (hs : env.SRV_RMQ_MAXX_RECONNECT_TIMES ≠ "")
    (hv : atoiValid env.SRV_RMQ_MAXX_RECONNECT_TIMES = false) :
    ∃ pool, New env conf = NewOutcome.ok pool ∧
      pool.conf.RMQ_MAXX_RECONNECT_TIMES = 0 ∧
      ∀ (worlds : Nat → ConnectWorld) (rbm : rbm_pool),
        (reconnect worlds pool.conf.RMQ_MAXX_RECONNECT_TIMES.toNat rbm).2.1 = 0 := by
  obtain ⟨pool, hN⟩ := new_ok_of_uri env conf hu
  have h0 : pool.conf.RMQ_MAXX_RECONNECT_TIMES = 0 := by
    rw [new_pool_times env conf pool hN, if_neg hs]
    simp [atoi, hv]
  refine ⟨pool, hN, h0, ?_⟩
  intro worlds rbm
  rw [h0]
  rfl

/-- Closed instance of `new_malformed_reconnect_times` at the malformed
string "3a". -/
theorem new_malformed_reconnect_times_witness :
    ∃ pool,
      New { SRV_RMQ_URI := "amqp://h10", SRV_RMQ_MAXX_RECONNECT_TIMES := "3a" } {} =
        NewOutcome.ok pool ∧
      pool.conf.RMQ_MAXX_RECONNECT_TIMES = 0 ∧
      ∀ (worlds : Nat → ConnectWorld) (rbm : rbm_pool),
        (reconnect worlds pool.conf.RMQ_MAXX_RECONNECT_TIMES.toNat rbm).2.1 = 0 :=
  new_malformed_reconnect_times
    { SRV_RMQ_URI := "amqp://h10", SRV_RMQ_MAXX_RECONNECT_TIMES := "3a" } {}
    (by decide) (by decide) (by decide)

/-- The modelled queue batch attempts every spec and collects exactly the
failing items' errors in input order. -/
theorem completeQueueDeclare_spec (outcome : Queue → Option String)
    (sq : List Queue) :
    (CompleteQueueDeclare outcome sq).2 = sq ∧
    (CompleteQueueDeclare outcome sq).1 = sq.filterMap outcome := by
  induction sq with
  | nil => simp [CompleteQueueDeclare]
  | cons q rest ih =>
    cases h : outcome q <;>
      simp [CompleteQueueDeclare, h, ih.1, ih.2, List.filterMap_cons]

/-- The modelled exchange batch attempts every spec and collects exactly
the failing items' errors in input order. -/
theorem completeExchangeDeclare_spec (outcome : Exchange → Option String)
    (ce : List Exchange) :
    (CompleteExchangeDeclare outcome ce).2 = ce ∧
    (CompleteExchangeDeclare outcome ce).1 = ce.filterMap outcome := by
  induction ce with
  | nil => simp [CompleteExchangeDeclare]
  | cons e rest ih =>
    cases h : outcome e <;>
      simp [CompleteExchangeDeclare, h, ih.1, ih.2, List.filterMap_cons]

/-- C7: the batch declarations attempt every spec of their input list — a
failing item never aborts the batch — and return exactly the errors of the
failing items, preserving input order; the error list is empty iff every
item succeeded, for the queue batch, the exchange batch and the combined
declaration alike. -/
theorem batch_declare_no_abort (outQ : Queue → Option String)
    (outE : Exchange → Option String) (sq : List Queue) (ce : List Exchange) :
    (CompleteQueueDeclare outQ sq).2 = sq ∧
    (CompleteQueueDeclare outQ sq).1 = sq.filterMap outQ ∧
    ((CompleteQueueDeclare outQ sq).1 = [] ↔ ∀ q ∈ sq, outQ q = none) ∧
    (CompleteExchangeDeclare outE ce).2 = ce ∧
    (CompleteExchangeDeclare outE ce).1 = ce.filterMap outE ∧
    ((CompleteExchangeDeclare outE ce).1 = [] ↔ ∀ e ∈ ce, outE e = none) ∧
    ((CompleteDeclare outQ outE sq ce).1 = [] ↔
      ((∀ e ∈ ce, outE e = none) ∧ ∀ q ∈ sq, outQ q = none)) := by
  have hq := completeQueueDeclare_spec outQ sq
  have he := completeExchangeDeclare_spec outE ce
  refine ⟨hq.1, hq.2, ?_, he.1, he.2, ?_, ?_⟩
  · rw [hq.2]; exact List.filterMap_eq_nil_iff
  · rw [he.2]; exact List.filterMap_eq_nil_iff
  · simp [CompleteDeclare, hq.2, he.2, List.filterMap_eq_nil_iff]

/-- C8: `CompleteDeclare` performs every exchange declaration before any
queue declaration — its trace is the whole exchange list followed by the
whole queue list — and aggregates the exchange-phase errors followed by
the queue-phase errors, each phase in input order: any position holding an
exchange event strictly precedes any position holding a queue event. -/
theorem completeDeclare_exchanges_first (outQ : Queue → Option String)
    (outE : Exchange → Option String) (cq : List Queue) (ce : List Exchange) :
    (CompleteDeclare outQ outE cq ce).2 =
      ce.map DeclEvent.ex ++ cq.map DeclEvent.qu ∧
    (CompleteDeclare outQ outE cq ce).1 =
      ce.filterMap outE ++ cq.filterMap outQ ∧
    ∀ (i j : Nat) (e : Exchange) (q : Queue),
      (CompleteDeclare outQ outE cq ce).2[i]? = some (DeclEvent.ex e) →
      (CompleteDeclare outQ outE cq ce).2[j]? = some (DeclEvent.qu q) →
      i < j := by
  have hq := completeQueueDeclare_spec outQ cq
  have he := completeExchangeDeclare_spec outE ce
  have htrace : (CompleteDeclare outQ outE cq ce).2 =
      ce.map DeclEvent.ex ++ cq.map DeclEvent.qu := by
    simp [CompleteDeclare, hq.1, he.1]
  have herr : (CompleteDeclare outQ outE cq ce).1 =
      ce.filterMap outE ++ cq.filterMap outQ := by
    simp [CompleteDeclare, hq.2, he.2]
  refine ⟨htrace, herr, ?_⟩
  intro i j e q hei hqj
  rw [htrace] at hei hqj
  have hi : i < (ce.map DeclEvent.ex).length := by
    by_contra hcon
    push_neg at hcon
    rw [List.getElem?_append_right hcon, List.getElem?_map] at hei
    cases h2 : cq[i - (ce.map DeclEvent.ex).length]? <;> simp [h2] at hei
  have hj : (ce.map DeclEvent.ex).length ≤ j := by
    by_contra hcon
    push_neg at hcon
    rw [List.getElem?_append_left hcon, List.getElem?_map] at hqj
    cases h2 : ce[j]? <;> simp [h2] at hqj
  omega

end rabbitmq

namespace blobstorage

/-- C9: both upload paths carry the if-none-match-any access condition in
the options they pass, so against the service's conditional semantics the
upload fails with an error exactly when a blob already exists at the target
(container, name), and succeeds exactly when that name is unoccupied. -/
theorem upload_conditional_create (existing : List (String × String))
    (blobName containerName : String) (data stream : List Nat) :
    uploadBufferOptions.accessConditions =
      some { modified := some { IfNoneMatch := some ETagAny } } ∧
    uploadStreamOptions.accessConditions =
      some { modified := some { IfNoneMatch := some ETagAny } } ∧
    (UploadBlobBuffer existing blobName containerName data = none ↔
      (containerName, blobName) ∉ existing) ∧
    (UploadBlobStream existing blobName containerName stream = none ↔
      (containerName, blobName) ∉ existing) := by
  refine ⟨rfl, rfl, ?_, ?_⟩ <;>
    · by_cases h : (containerName, blobName) ∈ existing <;>
        simp [UploadBlobBuffer, UploadBlobStream, serviceUpload,
          uploadBufferOptions, uploadStreamOptions, ETagAny, h]

end blobstorage
